import Mathlib

/-!
Shallow embedding of `bedrock_chat.py` (bedrock-python-boto3-conversation-client):
an interactive chat client keeping a conversation history, a current role
(system-prompt key), and a fixed model identifier, calling a remote inference
endpoint once per turn.

Python built-ins used by the script (`str.strip`, `str.lower`, `str.startswith`,
dict key lookup) are modelled by small explicit functions on `String`/lists.
The network call and the wall clock are modelled as oracle parameters: the
response of `invoke_model` (or its absence, standing for any raised exception
on the transport/parse path) and the timestamp strings produced by
`datetime.now().isoformat()` are inputs of the embedded functions.
-/

/-- One element of `conversation_history` as built by `add_to_history`:
a dict with keys `role`, `content`, `timestamp`. -/
structure Turn where
  role : String
  content : String
  timestamp : String
deriving DecidableEq

/-- The mutable state of a `BedrockChat` instance: `conversation_history`,
`model_id`, `current_role`.  The `bedrock_runtime` boto3 client handle and the
constant `available_commands` table are omitted: they are never mutated and
carry no data the embedded operations read. -/
structure BedrockChat where
  conversation_history : List Turn
  model_id : String
  current_role : String
deriving DecidableEq

/-- The module-level `ROLE_PROMPTS` dict, as an association list in the source's
insertion order, with the exact string values of the Python triple-quoted
literals. -/
def ROLE_PROMPTS : List (String × String) :=
  [("default", "You are Claude, an AI assistant created by Anthropic. \n                 You are helpful, harmless, and honest."),
   ("translator", "You are a professional translator. \n                    Always maintain the original meaning while providing natural translations. \n                    When translating, consider cultural context and local expressions.\n                    Please respond in the target language directly."),
   ("programmer", "You are an experienced software developer.\n                    Provide clear, well-documented code examples.\n                    Focus on best practices and explain your reasoning.\n                    Always include comments in Traditional Chinese."),
   ("teacher", "You are a patient and knowledgeable teacher.\n                 Break down complex concepts into simple terms.\n                 Use examples and analogies to explain difficult topics.\n                 Please respond in Traditional Chinese."),
   ("business_analyst", "You are a business analysis expert.\n                         Provide detailed market insights and data-driven analysis.\n                         Focus on practical business recommendations.\n                         Please respond in Traditional Chinese."),
   ("aws_sa", "你是一個 AWS Solutions Architect.\n                         你會用台灣中文回答關於AWS的所有技術、架構問題，但遇到專有名詞你會使用原來的英文不會進行翻譯。\n                         說明過程要有條有理")]

/-- Python dict access `ROLE_PROMPTS[r]` / membership `r in ROLE_PROMPTS`:
`some` of the prompt text when the key is present, `none` (a `KeyError` in
Python) otherwise. -/
def lookupRolePrompt (r : String) : Option String :=
  (ROLE_PROMPTS.find? (fun p => p.1 == r)).map (fun p => p.2)

/-- `BedrockChat.__init__(role_type)`: empty history, the fixed model id, and
`current_role = role_type`. -/
def mkBedrockChat (role_type : String) : BedrockChat :=
  { conversation_history := []
    model_id := "anthropic.claude-3-sonnet-20240229-v1:0"
    current_role := role_type }

/-- The one construction the program performs: `chat = BedrockChat()` in
`main`, with the default `role_type="default"`. -/
def initChat : BedrockChat := mkBedrockChat "default"

/-- `BedrockChat.set_role(role_type)`: when `role_type in ROLE_PROMPTS`, set
`current_role` and return `True`; otherwise leave the state unchanged and
return `False`. -/
def set_role (st : BedrockChat) (role_type : String) : BedrockChat × Bool :=
  if (lookupRolePrompt role_type).isSome then
    ({ st with current_role := role_type }, true)
  else
    (st, false)

/-- `BedrockChat.add_to_history(role, content)`: append a dict with the role,
the content, and the timestamp `datetime.now().isoformat()` (passed here as the
oracle argument `ts`). -/
def add_to_history (st : BedrockChat) (role content ts : String) : BedrockChat :=
  { st with conversation_history :=
      st.conversation_history ++ [{ role := role, content := content, timestamp := ts }] }

/-- One `{role, content}` entry of the `messages` list sent to the model
(timestamps stripped). -/
structure Msg where
  role : String
  content : String
deriving DecidableEq

/-- The request `get_response` issues: the JSON `body` fields together with the
`modelId` passed to `invoke_model`.  Sampling parameters are the literal
numbers of the source; the two decimal literals are embedded as rationals. -/
structure InvokeRequest where
  anthropic_version : String
  messages : List Msg
  max_tokens : Nat
  temperature : ℚ
  top_p : ℚ
  top_k : Nat
  system : String
  modelId : String
deriving DecidableEq

/-- One element of `response_body['content']`; only its `text` field is read. -/
structure ContentBlock where
  text : String
deriving DecidableEq

/-- The parsed `response_body` of a successful, well-formed `invoke_model`
call: its `content` list of blocks. -/
structure ResponseBody where
  content : List ContentBlock
deriving DecidableEq

/-- The `{"role": ..., "content": ...}` dict the `messages` comprehension in
`get_response` builds from one history entry: the timestamp is stripped. -/
def stripTurn (t : Turn) : Msg := { role := t.role, content := t.content }

/-- The request constructed inside `get_response` after the user turn has been
appended: `none` when `ROLE_PROMPTS[self.current_role]` raises `KeyError`
(so `invoke_model` is never reached). -/
def buildRequest (st : BedrockChat) : Option InvokeRequest :=
  (lookupRolePrompt st.current_role).map (fun sys =>
    { anthropic_version := "bedrock-2023-05-31"
      messages := st.conversation_history.map stripTurn
      max_tokens := 4096
      temperature := 7/10
      top_p := 9/10
      top_k := 250
      system := sys
      modelId := st.model_id })

/-- `BedrockChat.get_response(user_input)`.  The user turn is appended first,
inside the `try`.  `net` is the network oracle: `none` stands for any exception
raised by `invoke_model` or by parsing its body; `some rb` for a parsed
response body.  Every exception is caught and turned into a `None` return,
leaving the user turn appended with no rollback; on success the text of
`response_body['content'][0]` is appended as the assistant turn and returned
(`content[0]` raising `IndexError` on an empty list is the `head?`-`none`
case). -/
def get_response (st : BedrockChat) (user_input tsU tsA : String)
    (net : Option ResponseBody) : BedrockChat × Option String :=
  let st1 := add_to_history st "user" user_input tsU
  match buildRequest st1 with
  | none => (st1, none)
  | some _ =>
    match net with
    | none => (st1, none)
    | some rb =>
      match rb.content.head? with
      | none => (st1, none)
      | some blk => (add_to_history st1 "assistant" blk.text tsA, some blk.text)

/-- `BedrockChat.clear_history()`: reset `conversation_history` to `[]`. -/
def clear_history (st : BedrockChat) : BedrockChat :=
  { st with conversation_history := [] }

/-- What a path of the modelled file system holds: no file at all
(`FileNotFoundError` on open), a file whose contents do not parse back
(`json.load` raising), or a file holding a serialized turn list.  JSON
round-tripping of the `{role, content, timestamp}` records is the identity, so
a valid file is modelled by the turn list itself. -/
inductive FileContent where
  | absent : FileContent
  | invalid : FileContent
  | valid : List Turn → FileContent
deriving DecidableEq

/-- The file system, a map from file names to contents. -/
def FS : Type := String → FileContent

/-- `BedrockChat.save_conversation(filename)`: `json.dump` the full
`conversation_history` (roles, contents and timestamps) to the file,
overwriting unconditionally. -/
def save_conversation (st : BedrockChat) (fs : FS) (filename : String) : FS :=
  fun p => if p = filename then FileContent.valid st.conversation_history else fs p

/-- How a `load_conversation` call ends: history replaced from the file, or
`FileNotFoundError` caught with its dedicated message, or a parse failure
escaping to the outer loop handler. -/
inductive LoadOutcome where
  | loaded : LoadOutcome
  | notFound : LoadOutcome
  | parseError : LoadOutcome
deriving DecidableEq

/-- `BedrockChat.load_conversation(filename)`: replace the history verbatim
with the file's parsed contents; on `FileNotFoundError` print the dedicated
not-found message and leave the history unchanged; a `json.load` failure also
leaves the history unchanged (the assignment never runs) but surfaces as a
generic exception, not the not-found message. -/
def load_conversation (st : BedrockChat) (fs : FS) (filename : String) :
    BedrockChat × LoadOutcome :=
  match fs filename with
  | FileContent.absent => (st, LoadOutcome.notFound)
  | FileContent.invalid => (st, LoadOutcome.parseError)
  | FileContent.valid ts => ({ st with conversation_history := ts }, LoadOutcome.loaded)

/-- Python `str.strip()` (no argument): drop whitespace from both ends. -/
def pyStrip (s : String) : String :=
  String.mk (((s.data.dropWhile Char.isWhitespace).reverse.dropWhile Char.isWhitespace).reverse)

/-- Python `str.lower()` on the characters of the string. -/
def pyLower (s : String) : String :=
  String.mk (s.data.map Char.toLower)

/-- Python `s.startswith(pre)`. -/
def pyStartsWith (pre s : String) : Bool :=
  pre.data.isPrefixOf s.data

/-- The oracle inputs one iteration of the `main` loop may consume: the answer
to the `role` sub-prompt, the network outcome, and the two timestamps of a
chat exchange. -/
structure LoopEnv where
  roleInput : String
  net : Option ResponseBody
  tsU : String
  tsA : String

/-- The observable result of one iteration of the `main` loop: the chat state,
the file system, the inference request issued this iteration (if any), and
whether the loop `break`s (`quit`). -/
structure StepResult where
  chat : BedrockChat
  fs : FS
  request : Option InvokeRequest
  quit : Bool

/-- The body of the `while True` loop in `main`, applied to the already
stripped input `u` (the source computes `user_input = input("\n你: ").strip()`
once and branches on `user_input.lower()`); mirrors the source's branch
order.  `help` branches only print; `quit` breaks; `clear`/`save`/`load`/`role`
call the corresponding methods with the fixed file name
`chat_history.json`; empty input is skipped; anything else is sent to
`get_response`. -/
def loopStepStripped (st : BedrockChat) (fs : FS) (env : LoopEnv) (u : String) :
    StepResult :=
  let low := pyLower u
  if low == "help" then
    { chat := st, fs := fs, request := none, quit := false }
  else if pyStartsWith "help " low then
    { chat := st, fs := fs, request := none, quit := false }
  else if low == "quit" then
    { chat := st, fs := fs, request := none, quit := true }
  else if low == "clear" then
    { chat := clear_history st, fs := fs, request := none, quit := false }
  else if low == "save" then
    { chat := st, fs := save_conversation st fs "chat_history.json",
      request := none, quit := false }
  else if low == "load" then
    { chat := (load_conversation st fs "chat_history.json").1, fs := fs,
      request := none, quit := false }
  else if low == "role" then
    let new_role := pyStrip env.roleInput
    if new_role == "" then
      { chat := st, fs := fs, request := none, quit := false }
    else
      { chat := (set_role st new_role).1, fs := fs, request := none, quit := false }
  else if u == "" then
    { chat := st, fs := fs, request := none, quit := false }
  else
    { chat := (get_response st u env.tsU env.tsA env.net).1, fs := fs,
      request := buildRequest (add_to_history st "user" u env.tsU), quit := false }

/-- One iteration of the `main` loop on the raw line read from the terminal:
strip it, then dispatch. -/
def loopStep (st : BedrockChat) (fs : FS) (env : LoopEnv) (raw : String) :
    StepResult :=
  loopStepStripped st fs env (pyStrip raw)

/-- One `sendTurn` exchange as seen from outside: the user's text, the two
timestamps, and the network outcome of this turn's single request. -/
structure Exchange where
  input : String
  tsU : String
  tsA : String
  net : Option ResponseBody

/-- The reply `get_response` extracts from an exchange's network outcome:
the text of the first content block, when the call succeeds and the block
exists. -/
def succReply (e : Exchange) : Option String :=
  e.net.bind (fun rb => rb.content.head?.map (fun blk => blk.text))

/-- Run a sequence of `get_response` calls, collecting each call's returned
value. -/
def runTurns : BedrockChat → List Exchange → BedrockChat × List (Option String)
  | st, [] => (st, [])
  | st, e :: es =>
    let r := get_response st e.input e.tsU e.tsA e.net
    let rest := runTurns r.1 es
    (rest.1, r.2 :: rest.2)

/-- The user turn an exchange appends. -/
def userTurnOf (e : Exchange) : Turn :=
  { role := "user", content := e.input, timestamp := e.tsU }

/-- The assistant turn a successful exchange appends. -/
def asstTurnOf (e : Exchange) : Turn :=
  { role := "assistant", content := (succReply e).getD "", timestamp := e.tsA }

/-- The user/assistant turn pairs a list of successful exchanges appends. -/
def pairsOf : List Exchange → List Turn
  | [] => []
  | e :: es => userTurnOf e :: asstTurnOf e :: pairsOf es

/-- States of the chat object reachable in the program: constructed as in
`main` (`BedrockChat()`), then mutated by role switches, turns, history
clears and loads (`save_conversation` does not touch the object). -/
inductive Reachable : BedrockChat → Prop
  | init : Reachable initChat
  | step_set_role {st : BedrockChat} (x : String) :
      Reachable st → Reachable (set_role st x).1
  | step_response {st : BedrockChat} (ui tsU tsA : String) (net : Option ResponseBody) :
      Reachable st → Reachable (get_response st ui tsU tsA net).1
  | step_clear {st : BedrockChat} :
      Reachable st → Reachable (clear_history st)
  | step_load {st : BedrockChat} (fs : FS) (f : String) :
      Reachable st → Reachable (load_conversation st fs f).1

/-! ### Helper lemmas -/

theorem add_to_history_current_role (st : BedrockChat) (r c t : String) :
    (add_to_history st r c t).current_role = st.current_role := rfl

theorem add_to_history_model_id (st : BedrockChat) (r c t : String) :
    (add_to_history st r c t).model_id = st.model_id := rfl

theorem get_response_current_role (st : BedrockChat) (ui tsU tsA : String)
    (net : Option ResponseBody) :
    (get_response st ui tsU tsA net).1.current_role = st.current_role := by
  unfold get_response
  dsimp only
  split
  · rfl
  · split
    · rfl
    · split
      · rfl
      · rfl

theorem get_response_model_id (st : BedrockChat) (ui tsU tsA : String)
    (net : Option ResponseBody) :
    (get_response st ui tsU tsA net).1.model_id = st.model_id := by
  unfold get_response
  dsimp only
  split
  · rfl
  · split
    · rfl
    · split
      · rfl
      · rfl

theorem set_role_model_id (st : BedrockChat) (x : String) :
    (set_role st x).1.model_id = st.model_id := by
  unfold set_role
  by_cases h : (lookupRolePrompt x).isSome <;> simp [h]

theorem load_conversation_current_role (st : BedrockChat) (fs : FS) (f : String) :
    (load_conversation st fs f).1.current_role = st.current_role := by
  unfold load_conversation
  cases fs f <;> rfl

theorem load_conversation_model_id (st : BedrockChat) (fs : FS) (f : String) :
    (load_conversation st fs f).1.model_id = st.model_id := by
  unfold load_conversation
  cases fs f <;> rfl

theorem reachable_role_valid {st : BedrockChat} (h : Reachable st) :
    (lookupRolePrompt st.current_role).isSome = true := by
  induction h with
  | init => rfl
  | step_set_role x _ ih =>
    unfold set_role
    by_cases hx : (lookupRolePrompt x).isSome <;> simp [hx, ih]
  | step_response ui tsU tsA net _ ih =>
    rw [get_response_current_role]; exact ih
  | step_clear _ ih => exact ih
  | step_load fs f _ ih =>
    rw [load_conversation_current_role]; exact ih

theorem reachable_model_id {st : BedrockChat} (h : Reachable st) :
    st.model_id = "anthropic.claude-3-sonnet-20240229-v1:0" := by
  induction h with
  | init => rfl
  | step_set_role x _ ih => rw [set_role_model_id]; exact ih
  | step_response ui tsU tsA net _ ih => rw [get_response_model_id]; exact ih
  | step_clear _ ih => exact ih
  | step_load fs f _ ih => rw [load_conversation_model_id]; exact ih

theorem buildRequest_some (st : BedrockChat) (sys : String)
    (hsys : lookupRolePrompt st.current_role = some sys) :
    buildRequest st = some
      { anthropic_version := "bedrock-2023-05-31"
        messages := st.conversation_history.map stripTurn
        max_tokens := 4096
        temperature := 7/10
        top_p := 9/10
        top_k := 250
        system := sys
        modelId := st.model_id } := by
  simp [buildRequest, hsys]

theorem get_response_success (st : BedrockChat) (e : Exchange)
    (hrole : (lookupRolePrompt st.current_role).isSome = true)
    (hs : (succReply e).isSome = true) :
    get_response st e.input e.tsU e.tsA e.net =
      ({ st with conversation_history :=
          st.conversation_history ++ [userTurnOf e, asstTurnOf e] },
       succReply e) := by
  cases hnet : e.net with
  | none => simp [succReply, hnet] at hs
  | some rb =>
    cases hhd : rb.content.head? with
    | none => simp [succReply, hnet, hhd] at hs
    | some blk =>
      rcases Option.isSome_iff_exists.mp hrole with ⟨sys, hsys⟩
      have hsys1 : lookupRolePrompt (add_to_history st "user" e.input e.tsU).current_role
          = some sys := by rw [add_to_history_current_role]; exact hsys
      have hb := buildRequest_some (add_to_history st "user" e.input e.tsU) sys hsys1
      have hrep : succReply e = some blk.text := by
        simp [succReply, hnet, hhd]
      unfold get_response
      dsimp only
      split
      case h_1 heq => rw [hb] at heq; exact Option.noConfusion heq
      case h_2 req heq =>
        rw [hhd]
        dsimp only
        rw [hrep]
        simp [add_to_history, userTurnOf, asstTurnOf, hrep]

theorem runTurns_cons (st : BedrockChat) (e : Exchange) (es : List Exchange) :
    runTurns st (e :: es) =
      ((runTurns (get_response st e.input e.tsU e.tsA e.net).1 es).1,
       (get_response st e.input e.tsU e.tsA e.net).2 ::
         (runTurns (get_response st e.input e.tsU e.tsA e.net).1 es).2) := rfl

theorem runTurns_success (es : List Exchange) :
    ∀ st : BedrockChat, (lookupRolePrompt st.current_role).isSome = true →
    (∀ e ∈ es, (succReply e).isSome = true) →
    runTurns st es =
      ({ st with conversation_history := st.conversation_history ++ pairsOf es },
       es.map (fun e => succReply e)) := by
  induction es with
  | nil => intro st _ _; simp [runTurns, pairsOf]
  | cons e es ih =>
    intro st hrole hall
    have he : (succReply e).isSome = true := hall e (List.mem_cons_self e es)
    have hrest : ∀ x ∈ es, (succReply x).isSome = true :=
      fun x hx => hall x (List.mem_cons_of_mem e hx)
    rw [runTurns_cons, get_response_success st e hrole he]
    dsimp only
    have hrole1 : (lookupRolePrompt
        ({ st with conversation_history :=
            st.conversation_history ++ [userTurnOf e, asstTurnOf e] } :
          BedrockChat).current_role).isSome = true := hrole
    rw [ih _ hrole1 hrest]
    simp [pairsOf, List.append_assoc]

theorem pairsOf_length (es : List Exchange) :
    (pairsOf es).length = 2 * es.length := by
  induction es with
  | nil => rfl
  | cons e es ih =>
    simp [pairsOf, ih]
    ring

theorem pairsOf_get (es : List Exchange) :
    ∀ i : Nat, ∀ hi : i < es.length,
      (pairsOf es).get? (2 * i) = some (userTurnOf (es.get ⟨i, hi⟩)) ∧
      (pairsOf es).get? (2 * i + 1) = some (asstTurnOf (es.get ⟨i, hi⟩)) := by
  induction es with
  | nil => intro i hi; exact absurd hi (Nat.not_lt_zero i)
  | cons e es ih =>
    intro i hi
    cases i with
    | zero => exact ⟨rfl, rfl⟩
    | succ j =>
      have hj : j < es.length := Nat.lt_of_succ_lt_succ hi
      have h2 : 2 * (j + 1) = (2 * j) + 2 := by ring
      rw [h2]
      exact ⟨(ih j hj).1, (ih j hj).2⟩

theorem ROLE_PROMPTS_keys :
    ROLE_PROMPTS.map Prod.fst =
      ["default", "translator", "programmer", "teacher", "business_analyst", "aws_sa"] := rfl

theorem lookupRolePrompt_isSome_iff (x : String) :
    (lookupRolePrompt x).isSome = true ↔
      x ∈ ["default", "translator", "programmer", "teacher", "business_analyst", "aws_sa"] := by
  constructor
  · intro h
    rcases Option.isSome_iff_exists.mp h with ⟨sys, hsys⟩
    unfold lookupRolePrompt at hsys
    rcases hmap : ROLE_PROMPTS.find? (fun p => p.1 == x) with _ | q
    · rw [hmap] at hsys; exact Option.noConfusion hsys
    · have hq : q.1 = x := by simpa using List.find?_some hmap
      have hmem : q ∈ ROLE_PROMPTS := List.mem_of_find?_eq_some hmap
      rw [← hq, ← ROLE_PROMPTS_keys]
      exact List.mem_map_of_mem Prod.fst hmem
  · intro h
    simp only [List.mem_cons, List.mem_singleton, List.not_mem_nil, or_false] at h
    rcases h with rfl | rfl | rfl | rfl | rfl | rfl <;> rfl

/-! ### Claims -/

/-- C3: `set_role(x)` for a role name `x` that is not a key of `ROLE_PROMPTS`
(equivalently, not one of default, translator, programmer, teacher,
business_analyst, aws_sa) returns `False` and leaves the whole state — in
particular `current_role` — unchanged; for a key `x` it returns `True` and sets
`current_role` exactly to `x`. -/
theorem C3_set_role_spec (st : BedrockChat) (x : String) :
    ((lookupRolePrompt x).isSome = true ↔
      x ∈ ["default", "translator", "programmer", "teacher", "business_analyst", "aws_sa"]) ∧
    ((lookupRolePrompt x).isSome = false → set_role st x = (st, false)) ∧
    ((lookupRolePrompt x).isSome = true →
      set_role st x = ({ st with current_role := x }, true)) := by
  refine ⟨lookupRolePrompt_isSome_iff x, ?_, ?_⟩ <;> intro h <;> simp [set_role, h]

theorem C3_set_role_spec_witness :
    (lookupRolePrompt "wizard").isSome = false ∧
    set_role initChat "wizard" = (initChat, false) ∧
    (lookupRolePrompt "translator").isSome = true ∧
    set_role initChat "translator" = ({ initChat with current_role := "translator" }, true) :=
  ⟨by decide, (C3_set_role_spec initChat "wizard").2.1 (by decide), by decide,
   (C3_set_role_spec initChat "translator").2.2 (by decide)⟩

/-- C4: in every reachable session state — after the program's construction of
the chat object and any sequence of role switches, turns, history clears and
loads — `current_role` is a key of `ROLE_PROMPTS`, so the role-prompt lookup
performed when building a request (and when showing the current role) never
hits an absent key. -/
theorem C4_current_role_always_valid (st : BedrockChat) (h : Reachable st) :
    (lookupRolePrompt st.current_role).isSome = true ∧
    (buildRequest st).isSome = true := by
  have hrole := reachable_role_valid h
  refine ⟨hrole, ?_⟩
  rcases Option.isSome_iff_exists.mp hrole with ⟨sys, hsys⟩
  simp [buildRequest, hsys]

theorem C4_current_role_always_valid_witness :
    (lookupRolePrompt initChat.current_role).isSome = true ∧
    (buildRequest initChat).isSome = true :=
  C4_current_role_always_valid initChat Reachable.init

/-- C5: for every conversation history, `save_conversation(path)` followed by
`load_conversation(path)` into a fresh session reproduces the original ordered
turn sequence exactly — the role/content pairs and the timestamps come back
verbatim from the file. -/
theorem C5_save_load_roundtrip (st : BedrockChat) (fs : FS) (path : String) :
    load_conversation initChat (save_conversation st fs path) path =
      ({ initChat with conversation_history := st.conversation_history },
       LoadOutcome.loaded) := by
  simp [load_conversation, save_conversation]

/-- C8: `clear_history()` leaves the conversation history empty, whatever the
prior state was; any later read of the history field yields the empty
sequence. -/
theorem C8_clear_history_empty (st : BedrockChat) :
    (clear_history st).conversation_history = [] ∧
    (clear_history st).conversation_history.length = 0 := ⟨rfl, rfl⟩

/-- C9: frame conditions — `set_role` touches at most `current_role`, leaving
the conversation history and the model identifier unchanged whether the switch
succeeds or fails, and `clear_history` touches at most the conversation
history, leaving `current_role` and the model identifier unchanged. -/
theorem C9_frame_conditions (st : BedrockChat) (x : String) :
    (set_role st x).1.conversation_history = st.conversation_history ∧
    (set_role st x).1.model_id = st.model_id ∧
    (clear_history st).current_role = st.current_role ∧
    (clear_history st).model_id = st.model_id := by
  refine ⟨?_, set_role_model_id st x, rfl, rfl⟩
  unfold set_role
  by_cases h : (lookupRolePrompt x).isSome <;> simp [h]

/-- C10: a terminal input whose stripped form is empty makes one iteration of
the `main` loop a no-op: the chat state and the file system are unchanged, no
inference request is issued, and the loop does not terminate. -/
theorem C10_empty_input_noop (st : BedrockChat) (fs : FS) (env : LoopEnv)
    (raw : String) (h : pyStrip raw = "") :
    loopStep st fs env raw = { chat := st, fs := fs, request := none, quit := false } := by
  show loopStepStripped st fs env (pyStrip raw) = _
  rw [h]
  rfl

theorem C10_empty_input_noop_witness :
    pyStrip "   " = "" ∧
    loopStep initChat (fun _ => FileContent.absent)
        { roleInput := "", net := none, tsU := "a", tsA := "b" } "   " =
      { chat := initChat, fs := fun _ => FileContent.absent, request := none, quit := false } :=
  ⟨rfl, C10_empty_input_noop initChat (fun _ => FileContent.absent)
    { roleInput := "", net := none, tsU := "a", tsA := "b" } "   " rfl⟩

theorem get_response_failure (st : BedrockChat) (ui tsU tsA : String)
    (net : Option ResponseBody)
    (hf : net.bind (fun rb => rb.content.head?.map (fun blk => blk.text)) = none) :
    get_response st ui tsU tsA net = (add_to_history st "user" ui tsU, none) := by
  unfold get_response
  dsimp only
  split
  · rfl
  · cases hnet : net with
    | none => rfl
    | some rb =>
      cases hhd : rb.content.head? with
      | none => simp [hnet, hhd]
      | some blk => simp [hnet, hhd] at hf

/-- C1: starting from the empty history, any sequence of N successful
`get_response` calls (each returning a non-`None` reply) leaves a history of
length 2N that strictly alternates user and assistant turns, the i-th user
turn carrying the i-th input and immediately followed by an assistant turn
whose content is exactly the reply returned by the i-th call. -/
theorem C1_successful_turns_history (es : List Exchange)
    (h : ∀ e ∈ es, (succReply e).isSome = true) :
    (runTurns initChat es).1.conversation_history.length = 2 * es.length ∧
    (runTurns initChat es).2 = es.map (fun e => succReply e) ∧
    ∀ i : Nat, ∀ hi : i < es.length,
      (runTurns initChat es).1.conversation_history.get? (2 * i) =
        some (userTurnOf (es.get ⟨i, hi⟩)) ∧
      (runTurns initChat es).1.conversation_history.get? (2 * i + 1) =
        some (asstTurnOf (es.get ⟨i, hi⟩)) ∧
      (runTurns initChat es).2.get? i =
        some (some ((asstTurnOf (es.get ⟨i, hi⟩)).content)) := by
  have hrun := runTurns_success es initChat rfl h
  have hhist : (runTurns initChat es).1.conversation_history = pairsOf es := by
    rw [hrun]
    simp [initChat, mkBedrockChat]
  refine ⟨by rw [hhist, pairsOf_length], by rw [hrun], ?_⟩
  intro i hi
  refine ⟨by rw [hhist]; exact (pairsOf_get es i hi).1,
          by rw [hhist]; exact (pairsOf_get es i hi).2, ?_⟩
  have hmem : es.get ⟨i, hi⟩ ∈ es := List.get_mem es i hi
  rcases Option.isSome_iff_exists.mp (h _ hmem) with ⟨v, hv⟩
  have hget : es.get? i = some (es.get ⟨i, hi⟩) := List.get?_eq_get hi
  have hv2 : succReply (es.get ⟨i, hi⟩) = some v := hv
  rw [hrun]
  dsimp only
  rw [List.get?_map, hget]
  rw [List.get_eq_getElem] at hv2
  simp [asstTurnOf, hv2]

/-- One successful exchange, used as a concrete input: the spec's own scenario
of a turn "Hello" answered by "Bonjour". -/
def exBonjour : Exchange :=
  { input := "Hello", tsU := "t1", tsA := "t2",
    net := some { content := [{ text := "Bonjour" }] } }

theorem C1_successful_turns_history_witness :
    (∀ e ∈ [exBonjour], (succReply e).isSome = true) ∧
    (runTurns initChat [exBonjour]).1.conversation_history.length = 2 * 1 ∧
    (runTurns initChat [exBonjour]).2 = [exBonjour].map (fun e => succReply e) :=
  ⟨by decide,
   (C1_successful_turns_history [exBonjour] (by decide)).1,
   (C1_successful_turns_history [exBonjour] (by decide)).2.1⟩

/-- C2: after k-1 successful turns from the empty history, a `get_response`
call whose inference fails (transport failure, unparseable body, or empty
content list) returns `None`, appends no assistant turn, and leaves the
history at length 2(k-1)+1: the user turn of the failed exchange stays
appended with no rollback. -/
theorem C2_failed_turn_history (es : List Exchange) (ef : Exchange)
    (hs : ∀ e ∈ es, (succReply e).isSome = true)
    (hf : succReply ef = none) :
    (get_response (runTurns initChat es).1 ef.input ef.tsU ef.tsA ef.net).2 = none ∧
    (get_response (runTurns initChat es).1 ef.input ef.tsU ef.tsA ef.net).1.conversation_history =
      (runTurns initChat es).1.conversation_history ++
        [{ role := "user", content := ef.input, timestamp := ef.tsU }] ∧
    (get_response (runTurns initChat es).1 ef.input ef.tsU ef.tsA ef.net).1.conversation_history.length =
      2 * es.length + 1 := by
  have hfail := get_response_failure (runTurns initChat es).1 ef.input ef.tsU ef.tsA ef.net hf
  have hhist : (runTurns initChat es).1.conversation_history = pairsOf es := by
    rw [runTurns_success es initChat rfl hs]
    simp [initChat, mkBedrockChat]
  refine ⟨by rw [hfail], by rw [hfail]; simp [add_to_history], ?_⟩
  rw [hfail]
  simp [add_to_history, hhist, pairsOf_length]

theorem C2_failed_turn_history_witness :
    succReply { input := "X", tsU := "t1", tsA := "t2", net := none } = none ∧
    (get_response (runTurns initChat []).1 "X" "t1" "t2" none).2 = none ∧
    (get_response (runTurns initChat []).1 "X" "t1" "t2" none).1.conversation_history =
      (runTurns initChat []).1.conversation_history ++
        [{ role := "user", content := "X", timestamp := "t1" }] ∧
    (get_response (runTurns initChat []).1 "X" "t1" "t2" none).1.conversation_history.length =
      2 * List.length ([] : List Exchange) + 1 :=
  ⟨rfl,
   (C2_failed_turn_history [] { input := "X", tsU := "t1", tsA := "t2", net := none }
      (by decide) rfl).1,
   (C2_failed_turn_history [] { input := "X", tsU := "t1", tsA := "t2", net := none }
      (by decide) rfl).2.1,
   (C2_failed_turn_history [] { input := "X", tsU := "t1", tsA := "t2", net := none }
      (by decide) rfl).2.2⟩

/-- C6: the inference request `get_response` builds contains exactly the full
ordered history at request time (the prior turns plus the just-appended user
turn) mapped to role/content pairs with timestamps stripped, the current
role's prompt text as the system prompt, the fixed parameters
max_tokens = 4096, temperature = 0.7, top_p = 0.9, top_k = 250, the protocol
version tag, and the fixed model identifier; and on a success the returned
reply is the text of the first content block of the response. -/
theorem C6_request_contents (st : BedrockChat) (h : Reachable st)
    (ui tsU tsA : String) (net : Option ResponseBody) (sys : String)
    (hs : lookupRolePrompt st.current_role = some sys) :
    buildRequest (add_to_history st "user" ui tsU) = some
      { anthropic_version := "bedrock-2023-05-31"
        messages := (st.conversation_history ++
          [({ role := "user", content := ui, timestamp := tsU } : Turn)]).map stripTurn
        max_tokens := 4096
        temperature := 7/10
        top_p := 9/10
        top_k := 250
        system := sys
        modelId := "anthropic.claude-3-sonnet-20240229-v1:0" } ∧
    (∀ rb blk, net = some rb → rb.content.head? = some blk →
      (get_response st ui tsU tsA net).2 = some blk.text) := by
  constructor
  · have hsys1 : lookupRolePrompt (add_to_history st "user" ui tsU).current_role = some sys := by
      rw [add_to_history_current_role]; exact hs
    rw [buildRequest_some (add_to_history st "user" ui tsU) sys hsys1]
    simp [add_to_history, reachable_model_id h]
  · intro rb blk hnet hhd
    have hrole : (lookupRolePrompt st.current_role).isSome = true := by rw [hs]; rfl
    have hsucc : (succReply { input := ui, tsU := tsU, tsA := tsA, net := net }).isSome = true := by
      simp [succReply, hnet, hhd]
    have hres := get_response_success st { input := ui, tsU := tsU, tsA := tsA, net := net }
      hrole hsucc
    dsimp only at hres
    rw [hres]
    simp [succReply, hnet, hhd]

theorem C6_request_contents_witness :
    lookupRolePrompt initChat.current_role =
      some "You are Claude, an AI assistant created by Anthropic. \n                 You are helpful, harmless, and honest." ∧
    buildRequest (add_to_history initChat "user" "hi" "t1") = some
      { anthropic_version := "bedrock-2023-05-31"
        messages := (initChat.conversation_history ++
          [({ role := "user", content := "hi", timestamp := "t1" } : Turn)]).map stripTurn
        max_tokens := 4096
        temperature := 7/10
        top_p := 9/10
        top_k := 250
        system := "You are Claude, an AI assistant created by Anthropic. \n                 You are helpful, harmless, and honest."
        modelId := "anthropic.claude-3-sonnet-20240229-v1:0" } ∧
    (get_response initChat "hi" "t1" "t2"
      (some { content := [{ text := "ok" }] })).2 = some "ok" :=
  ⟨rfl,
   (C6_request_contents initChat Reachable.init "hi" "t1" "t2"
      (some { content := [{ text := "ok" }] }) _ rfl).1,
   (C6_request_contents initChat Reachable.init "hi" "t1" "t2"
      (some { content := [{ text := "ok" }] }) _ rfl).2
     { content := [{ text := "ok" }] } { text := "ok" } rfl rfl⟩

/-- C7: a `load_conversation` on a path with no backing file reports the
dedicated not-found outcome — distinct from both a parse failure and a
successful load — and leaves the in-memory history (indeed the whole chat
state) unchanged; when this happens inside the `load` command of the loop, the
iteration leaves everything unchanged and the session continues. -/
theorem C7_load_not_found (st : BedrockChat) (fs : FS) (env : LoopEnv)
    (path : String) (h : fs path = FileContent.absent) :
    load_conversation st fs path = (st, LoadOutcome.notFound) ∧
    LoadOutcome.notFound ≠ LoadOutcome.parseError ∧
    LoadOutcome.notFound ≠ LoadOutcome.loaded ∧
    (path = "chat_history.json" →
      loopStep st fs env "load" = { chat := st, fs := fs, request := none, quit := false }) := by
  refine ⟨by unfold load_conversation; rw [h], by simp, by simp, ?_⟩
  intro hp
  subst hp
  have hred : loopStep st fs env "load" =
      { chat := (load_conversation st fs "chat_history.json").1, fs := fs,
        request := none, quit := false } := rfl
  rw [hred]
  unfold load_conversation
  rw [h]

theorem C7_load_not_found_witness :
    ((fun _ => FileContent.absent : FS) "chat_history.json" = FileContent.absent) ∧
    load_conversation initChat (fun _ => FileContent.absent) "chat_history.json" =
      (initChat, LoadOutcome.notFound) ∧
    loopStep initChat (fun _ => FileContent.absent)
        { roleInput := "", net := none, tsU := "a", tsA := "b" } "load" =
      { chat := initChat, fs := fun _ => FileContent.absent, request := none, quit := false } :=
  ⟨rfl,
   (C7_load_not_found initChat (fun _ => FileContent.absent)
      { roleInput := "", net := none, tsU := "a", tsA := "b" } "chat_history.json" rfl).1,
   (C7_load_not_found initChat (fun _ => FileContent.absent)
      { roleInput := "", net := none, tsU := "a", tsA := "b" } "chat_history.json" rfl).2.2.2 rfl⟩
